import Mathlib

/-!
Verification of the athletepension repository.

The repository's implemented logic is a five-step client-side questionnaire
wizard (`frontend/src/components/QuestionnaireWizard.tsx`, concatenated into
`frontend/src/routes.tsx` in this excerpt) and documentation of a backend
retirement-projection calculator.  The wizard is embedded below directly from
the TypeScript source.  The backend engine
(`backend/app/services/financial_calculator.py`) is not present in the source
excerpt, so it is modelled from the specification where a claim needs it.

Modelling conventions:
* TypeScript `number | null` state fields become `Option ℚ`; the two age
  fields are set exclusively through `parseInt(...) || null` in the source,
  so they are embedded as `Option ℤ`.
* JavaScript truthiness on these fields (`!x`) is false exactly for `null`
  and `0`; `x || 0` maps `null` and `0` to `0` and is otherwise the value,
  which coincides with `Option.getD 0`.
* Monetary arithmetic uses `ℚ` (exact), standing in for IEEE doubles; the
  spec's "within floating-point tolerance" comparisons become exact rational
  bounds.
-/

namespace AthletePension

/-! ## Questionnaire wizard data model (from `routes.tsx`) -/

/-- The `QuestionnaireData` interface of `routes.tsx`: every field is
`number | null` in TypeScript; the age fields are populated via `parseInt`
(hence integral), the monetary fields via `parseFloat`. -/
structure QuestionnaireData where
  age : Option ℤ
  currentIncome : Option ℚ
  currentWealth : Option ℚ
  retirementAge : Option ℤ
  monthlyPayoutRequired : Option ℚ
deriving Repr, DecidableEq

/-- JavaScript truthiness test for an optional integer: `!x` holds exactly
for `null` and `0`. -/
def jsFalsyInt : Option ℤ → Bool
  | none => true
  | some n => n == 0

/-- JavaScript truthiness test for an optional rational. -/
def jsFalsyRat : Option ℚ → Bool
  | none => true
  | some q => q == 0

/-- JavaScript `x || 0` on an optional number: `null` (and `0`) become `0`. -/
def jsNumOrZero (o : Option ℚ) : ℚ :=
  if jsFalsyRat o then 0 else o.getD 0

/-- The error (field key and message) produced by `validateStep` of
`routes.tsx` for a given step, or `none` when the step validates.  The
TypeScript builds a `Record<string, string>` holding at most one entry; the
entry is embedded directly.

Step 0: `if (!data.age || data.age < 18 || data.age > 100)`;
step 1: `if (!data.currentIncome || data.currentIncome < 0)`;
step 2: `if (data.currentWealth === null || data.currentWealth < 0)`;
step 3: `if (!data.retirementAge || data.retirementAge <= (data.age || 0))`;
step 4: `if (!data.monthlyPayoutRequired || data.monthlyPayoutRequired < 0)`;
any other step produces no error (the `switch` has no default case). -/
def stepError (d : QuestionnaireData) : Nat → Option (String × String)
  | 0 =>
    if jsFalsyInt d.age || d.age.getD 0 < 18 || d.age.getD 0 > 100 then
      some ("age", "Please enter a valid age between 18 and 100")
    else none
  | 1 =>
    if jsFalsyRat d.currentIncome || d.currentIncome.getD 0 < 0 then
      some ("currentIncome", "Please enter a valid income")
    else none
  | 2 =>
    if d.currentWealth == none || d.currentWealth.getD 0 < 0 then
      some ("currentWealth", "Please enter a valid amount (can be 0)")
    else none
  | 3 =>
    if jsFalsyInt d.retirementAge || d.retirementAge.getD 0 ≤ d.age.getD 0 then
      some ("retirementAge", "Retirement age must be greater than current age")
    else none
  | 4 =>
    if jsFalsyRat d.monthlyPayoutRequired || d.monthlyPayoutRequired.getD 0 < 0 then
      some ("monthlyPayoutRequired", "Please enter required monthly amount")
    else none
  | _ => none

/-- `validateStep` of `routes.tsx` returns `true` iff the freshly built
error record is empty. -/
def validateStep (d : QuestionnaireData) (step : Nat) : Bool :=
  (stepError d step).isNone

/-! ## Wizard state machine (from `routes.tsx`) -/

/-- Wizard component state: the controlled `currentStep`, the questionnaire
data, and the `errors` record (at most one entry, embedded as a list). -/
structure WizardState where
  currentStep : Nat
  data : QuestionnaireData
  errors : List (String × String)
deriving Repr, DecidableEq

/-- The JSON body built in `handleSubmit` for
`POST /api/v1/financial/analyze`: `age`, `retirement_age`, `current_income`
and `monthly_payout_required` are serialized as-is (possibly `null`), while
`current_wealth` is `data.currentWealth || 0`. -/
structure AnalyzeRequest where
  age : Option ℤ
  retirement_age : Option ℤ
  current_wealth : ℚ
  current_income : Option ℚ
  monthly_payout_required : Option ℚ
deriving Repr, DecidableEq

/-- `handleNext`: runs `validateStep(currentStep)` (which always overwrites
the error record), then advances only when validation passed and
`currentStep < steps.length - 1 = 4`. -/
def handleNext (s : WizardState) : WizardState :=
  let e := stepError s.data s.currentStep
  if e.isNone && decide (s.currentStep < 4) then
    { s with errors := e.toList, currentStep := s.currentStep + 1 }
  else
    { s with errors := e.toList }

/-- `handlePrevious`: steps back and clears the error record, but only when
`currentStep > 0`. -/
def handlePrevious (s : WizardState) : WizardState :=
  if 0 < s.currentStep then
    { s with currentStep := s.currentStep - 1, errors := [] }
  else s

/-- `handleSubmit`: runs `validateStep(currentStep)` and, when it passes,
emits the analyze request built from the current data (no other field is
re-validated).  The second component is the emitted request, if any. -/
def handleSubmit (s : WizardState) : WizardState × Option AnalyzeRequest :=
  let e := stepError s.data s.currentStep
  if e.isNone then
    ({ s with errors := e.toList },
      some { age := s.data.age
             retirement_age := s.data.retirementAge
             current_wealth := jsNumOrZero s.data.currentWealth
             current_income := s.data.currentIncome
             monthly_payout_required := s.data.monthlyPayoutRequired })
  else
    ({ s with errors := e.toList }, none)

/-- `handleKeyPress` on Enter: `handleNext` below the final step, otherwise
`handleSubmit`. -/
def handleEnter (s : WizardState) : WizardState × Option AnalyzeRequest :=
  if s.currentStep < 4 then (handleNext s, none) else handleSubmit s

/-- User events the wizard reacts to. -/
inductive WizardEvent
  | next
  | previous
  | enter
deriving Repr, DecidableEq

/-- One wizard transition (the state component of the handlers). -/
def wizardStep (s : WizardState) : WizardEvent → WizardState
  | .next => handleNext s
  | .previous => handlePrevious s
  | .enter => (handleEnter s).1

/-! ## Projection engine (modelled from the spec)

The backend service `backend/app/services/financial_calculator.py` and the
endpoint `backend/app/api/v1/endpoints/financial_analysis.py` are not part of
the source excerpt — only their documentation is.  The definitions below are
modelled from the specification (§3 data model, §4.2 algorithm steps 1–7)
and the repository's own `Key Calculations` documentation. -/

/-- Modelled from the spec: the `AssumptionSet` value object of §3, the rate
constants of the absent backend calculator. -/
structure AssumptionSet where
  withdrawalRate : ℚ
  growthRatePreRetirement : ℚ
  growthRatePostRetirement : ℚ
  inflationRate : ℚ
  taxRate : ℚ
deriving Repr, DecidableEq

/-- Modelled from the spec: the documented defaults 4% / 5% / 3% / 3% / 0. -/
def defaultAssumptions : AssumptionSet :=
  { withdrawalRate := 4 / 100
    growthRatePreRetirement := 5 / 100
    growthRatePostRetirement := 3 / 100
    inflationRate := 3 / 100
    taxRate := 0 }

/-- Modelled from the spec: the validated `AthleteFinancialInputs` of §3. -/
structure AthleteFinancialInputs where
  currentAge : ℤ
  retirementAge : ℤ
  currentWealth : ℚ
  currentIncome : ℚ
  monthlyPayoutRequired : ℚ
deriving Repr, DecidableEq

/-- Modelled from the spec: the engine's error taxonomy (§7).  Both
`ValidationError` and the defensive `ComputationError` surface identically at
the boundary; the message carries the offending condition. -/
inductive CalcError
  | validationError (msg : String)
deriving Repr, DecidableEq

/-- Modelled from the spec: the fields of `ProjectionResult` (§3) that the
documented algorithm (§4.2 steps 1–7) derives in closed form. -/
structure ProjectionResult where
  yearsToRetirement : ℤ
  annualPayoutRequired : ℚ
  requiredCorpus : ℚ
  projectedWealthAtRetirement : ℚ
  wealthGap : ℚ
  requiredMonthlySavings : ℚ
  savingsRatePercentage : ℚ
  isOnTrack : Bool
deriving Repr, DecidableEq

/-- Modelled from the spec: step 1 of §4.2,
`yearsToRetirement = retirementAge - currentAge`. -/
def yearsToRetirement (i : AthleteFinancialInputs) : ℤ :=
  i.retirementAge - i.currentAge

/-- Modelled from the spec: step 2 of §4.2,
`annualPayoutRequired = monthlyPayoutRequired * 12`. -/
def annualPayoutRequired (i : AthleteFinancialInputs) : ℚ :=
  i.monthlyPayoutRequired * 12

/-- Modelled from the spec: step 3 of §4.2,
`requiredCorpus = annualPayoutRequired / withdrawalRate` (guarded against a
zero rate by `computeProjection`). -/
def requiredCorpus (i : AthleteFinancialInputs) (a : AssumptionSet) : ℚ :=
  annualPayoutRequired i / a.withdrawalRate

/-- Modelled from the spec: step 4 of §4.2, annual compounding of the
current wealth with no new contributions. -/
def projectedWealthAtRetirement (i : AthleteFinancialInputs)
    (a : AssumptionSet) : ℚ :=
  i.currentWealth * (1 + a.growthRatePreRetirement) ^ (yearsToRetirement i).toNat

/-- Modelled from the spec: step 5 of §4.2,
`wealthGap = requiredCorpus - projectedWealthAtRetirement`. -/
def wealthGap (i : AthleteFinancialInputs) (a : AssumptionSet) : ℚ :=
  requiredCorpus i a - projectedWealthAtRetirement i a

/-- Modelled from the spec: the monthly equivalent of the pre-retirement
growth rate used by step 6 of §4.2. -/
def monthlyRate (a : AssumptionSet) : ℚ :=
  a.growthRatePreRetirement / 12

/-- Modelled from the spec: `n = yearsToRetirement * 12` months (step 6). -/
def monthsToRetirement (i : AthleteFinancialInputs) : ℕ :=
  12 * (yearsToRetirement i).toNat

/-- Modelled from the spec: the future-value-of-an-ordinary-annuity factor
`((1+r)^n - 1)/r` of step 6, reducing to `n` when `r == 0` (so that
`PMT = wealthGap / n` in that case). -/
def annuityFactor (r : ℚ) (n : ℕ) : ℚ :=
  if r = 0 then (n : ℚ) else ((1 + r) ^ n - 1) / r

/-- Modelled from the spec: step 6 of §4.2 — `0` when `wealthGap <= 0`,
otherwise the payment `PMT` solving the ordinary-annuity equation. -/
def requiredMonthlySavings (i : AthleteFinancialInputs)
    (a : AssumptionSet) : ℚ :=
  if wealthGap i a ≤ 0 then 0
  else wealthGap i a / annuityFactor (monthlyRate a) (monthsToRetirement i)

/-- Modelled from the spec: step 7 of §4.2,
`savingsRatePercentage = requiredMonthlySavings * 12 / currentIncome * 100`. -/
def savingsRatePercentage (i : AthleteFinancialInputs)
    (a : AssumptionSet) : ℚ :=
  requiredMonthlySavings i a * 12 / i.currentIncome * 100

/-- Modelled from the spec: the `ProjectionResult` record assembled from
steps 1–7 of §4.2 on the success path, with `isOnTrack = (wealthGap <= 0)`. -/
def projectionRecord (i : AthleteFinancialInputs) (a : AssumptionSet) :
    ProjectionResult :=
  { yearsToRetirement := yearsToRetirement i
    annualPayoutRequired := annualPayoutRequired i
    requiredCorpus := requiredCorpus i a
    projectedWealthAtRetirement := projectedWealthAtRetirement i a
    wealthGap := wealthGap i a
    requiredMonthlySavings := requiredMonthlySavings i a
    savingsRatePercentage := savingsRatePercentage i a
    isOnTrack := decide (wealthGap i a ≤ 0) }

/-- Modelled from the spec: `computeProjection` of §4.2, the absent backend
calculator.  Step 1 fails with `ValidationError` when
`yearsToRetirement <= 0`; step 3 fails with `ValidationError` when
`withdrawalRate == 0`; otherwise the result record collects steps 1–7, with
`isOnTrack = (wealthGap <= 0)`. -/
def computeProjection (i : AthleteFinancialInputs) (a : AssumptionSet) :
    Except CalcError ProjectionResult :=
  if yearsToRetirement i ≤ 0 then
    .error (.validationError "retirementAge must be greater than currentAge")
  else if a.withdrawalRate = 0 then
    .error (.validationError "withdrawalRate must not be zero")
  else
    .ok (projectionRecord i a)

/-- Modelled from the spec: replacing only the `monthlyPayoutRequired` field,
used to state the monotonicity property. -/
def setPayout (i : AthleteFinancialInputs) (p : ℚ) : AthleteFinancialInputs :=
  { i with monthlyPayoutRequired := p }

/-- The inputs of the spec's concrete scenario A (= the repository's Test
Scenario 1): age 25, retirement at 40, wealth 100000, income 200000, monthly
payout 5000. -/
def inputsA : AthleteFinancialInputs :=
  { currentAge := 25
    retirementAge := 40
    currentWealth := 100000
    currentIncome := 200000
    monthlyPayoutRequired := 5000 }

/-! ## Helper lemmas about the projection engine -/

/-- Inverting a successful `computeProjection`: both guards passed and the
result is the assembled record. -/
theorem computeProjection_ok_inv {i : AthleteFinancialInputs}
    {a : AssumptionSet} {res : ProjectionResult}
    (h : computeProjection i a = .ok res) :
    0 < yearsToRetirement i ∧ a.withdrawalRate ≠ 0 ∧
      res = projectionRecord i a := by
  unfold computeProjection at h
  split at h
  · exact Except.noConfusion h
  next hy =>
    split at h
    · exact Except.noConfusion h
    next hw =>
      simp only [Except.ok.injEq] at h
      exact ⟨lt_of_not_le hy, hw, h.symm⟩

/-- When both guards pass, `computeProjection` succeeds with the assembled
record. -/
theorem computeProjection_eq_ok (i : AthleteFinancialInputs)
    (a : AssumptionSet) (h1 : 0 < yearsToRetirement i)
    (h2 : a.withdrawalRate ≠ 0) :
    computeProjection i a = .ok (projectionRecord i a) := by
  unfold computeProjection
  rw [if_neg (not_le.2 h1), if_neg h2]

/-- The annuity factor is positive for a nonnegative monthly rate and at
least one month. -/
theorem annuityFactor_pos {r : ℚ} {n : ℕ} (hr : 0 ≤ r) (hn : 0 < n) :
    0 < annuityFactor r n := by
  unfold annuityFactor
  split
  · exact_mod_cast hn
  next h0 =>
    have hr' : 0 < r := lt_of_le_of_ne hr (Ne.symm h0)
    have h1 : (1 : ℚ) < (1 + r) ^ n :=
      one_lt_pow₀ (by linarith) hn.ne'
    exact div_pos (by linarith) hr'

/-- A positive wealth gap forces a positive required monthly saving. -/
theorem requiredMonthlySavings_pos {i : AthleteFinancialInputs}
    {a : AssumptionSet} (hg : 0 < wealthGap i a)
    (hr : 0 ≤ a.growthRatePreRetirement) (hy : 0 < yearsToRetirement i) :
    0 < requiredMonthlySavings i a := by
  unfold requiredMonthlySavings
  rw [if_neg (not_le.2 hg)]
  refine div_pos hg (annuityFactor_pos ?_ ?_)
  · exact div_nonneg hr (by norm_num)
  · unfold monthsToRetirement
    omega

/-! ## Claims -/

/-- C1: for every input and assumption set on which the engine succeeds, the
result satisfies `annualPayoutRequired = monthlyPayoutRequired * 12` and
`requiredCorpus = annualPayoutRequired / withdrawalRate` exactly; and with a
zero `withdrawalRate` (years-to-retirement positive so step 1 passes) the
engine fails with a `ValidationError` instead. -/
theorem corpus_formula_and_zero_rate_error :
    (∀ (i : AthleteFinancialInputs) (a : AssumptionSet)
        (res : ProjectionResult), computeProjection i a = .ok res →
        res.annualPayoutRequired = i.monthlyPayoutRequired * 12 ∧
        res.requiredCorpus = res.annualPayoutRequired / a.withdrawalRate) ∧
    (∀ (i : AthleteFinancialInputs) (a : AssumptionSet),
        0 < yearsToRetirement i → a.withdrawalRate = 0 →
        computeProjection i a =
          .error (.validationError "withdrawalRate must not be zero")) := by
  constructor
  · intro i a res h
    obtain ⟨-, -, hres⟩ := computeProjection_ok_inv h
    subst hres
    exact ⟨rfl, rfl⟩
  · intro i a hy hw
    unfold computeProjection
    rw [if_neg (not_le.2 hy), if_pos hw]

/-- Witness for C1 at scenario A (and its zero-withdrawal-rate variant). -/
theorem corpus_formula_and_zero_rate_error_witness :
    ((projectionRecord inputsA defaultAssumptions).annualPayoutRequired =
        inputsA.monthlyPayoutRequired * 12 ∧
      (projectionRecord inputsA defaultAssumptions).requiredCorpus =
        (projectionRecord inputsA defaultAssumptions).annualPayoutRequired /
          defaultAssumptions.withdrawalRate) ∧
    computeProjection inputsA { defaultAssumptions with withdrawalRate := 0 } =
      .error (.validationError "withdrawalRate must not be zero") :=
  ⟨corpus_formula_and_zero_rate_error.1 inputsA defaultAssumptions _
      (computeProjection_eq_ok inputsA defaultAssumptions (by decide)
        (by simp [defaultAssumptions])),
    corpus_formula_and_zero_rate_error.2 inputsA
      { defaultAssumptions with withdrawalRate := 0 } (by decide) rfl⟩

/-- C2: every successful projection result has `isOnTrack = true` exactly
when `wealthGap <= 0`, and a nonpositive wealth gap forces
`requiredMonthlySavings = 0`. -/
theorem on_track_iff_gap_nonpos {i : AthleteFinancialInputs}
    {a : AssumptionSet} {res : ProjectionResult}
    (h : computeProjection i a = .ok res) :
    (res.isOnTrack = true ↔ res.wealthGap ≤ 0) ∧
    (res.wealthGap ≤ 0 → res.requiredMonthlySavings = 0) := by
  obtain ⟨-, -, hres⟩ := computeProjection_ok_inv h
  subst hres
  constructor
  · simp [projectionRecord]
  · intro hg
    simp only [projectionRecord] at hg ⊢
    unfold requiredMonthlySavings
    rw [if_pos hg]

/-- Witness for C2 at scenario A. -/
theorem on_track_iff_gap_nonpos_witness :
    ((projectionRecord inputsA defaultAssumptions).isOnTrack = true ↔
      (projectionRecord inputsA defaultAssumptions).wealthGap ≤ 0) ∧
    ((projectionRecord inputsA defaultAssumptions).wealthGap ≤ 0 →
      (projectionRecord inputsA defaultAssumptions).requiredMonthlySavings
        = 0) :=
  on_track_iff_gap_nonpos
    (computeProjection_eq_ok inputsA defaultAssumptions (by decide)
      (by simp [defaultAssumptions]))

/-- The wealth gap of scenario A is strictly positive (the corpus 1500000
exceeds the projected `100000 * 1.05 ^ 15`). -/
theorem wealthGap_inputsA_pos : 0 < wealthGap inputsA defaultAssumptions := by
  simp only [wealthGap, requiredCorpus, annualPayoutRequired,
    projectedWealthAtRetirement, yearsToRetirement, inputsA,
    defaultAssumptions]
  norm_num [show (15 : ℤ).toNat = 15 from rfl]

/-- C3: on scenario A (age 25, retirement 40, wealth 100000, income 200000,
monthly payout 5000, default assumptions) the engine succeeds with
`yearsToRetirement = 15`, `annualPayoutRequired = 60000`,
`requiredCorpus = 1500000`, `projectedWealthAtRetirement` within 1 of
207893, `wealthGap` within 1 of 1292107, a strictly positive
`requiredMonthlySavings`, and `isOnTrack = false`. -/
theorem scenario_a :
    computeProjection inputsA defaultAssumptions =
      .ok (projectionRecord inputsA defaultAssumptions) ∧
    (projectionRecord inputsA defaultAssumptions).yearsToRetirement = 15 ∧
    (projectionRecord inputsA defaultAssumptions).annualPayoutRequired
      = 60000 ∧
    (projectionRecord inputsA defaultAssumptions).requiredCorpus = 1500000 ∧
    |(projectionRecord inputsA
        defaultAssumptions).projectedWealthAtRetirement - 207893| < 1 ∧
    |(projectionRecord inputsA defaultAssumptions).wealthGap - 1292107| < 1 ∧
    0 < (projectionRecord inputsA defaultAssumptions).requiredMonthlySavings ∧
    (projectionRecord inputsA defaultAssumptions).isOnTrack = false := by
  refine ⟨computeProjection_eq_ok inputsA defaultAssumptions (by decide)
      (by simp [defaultAssumptions]), ?_, ?_, ?_, ?_, ?_, ?_, ?_⟩
  · simp [projectionRecord, yearsToRetirement, inputsA]
  · simp only [projectionRecord, annualPayoutRequired, inputsA]
    norm_num
  · simp only [projectionRecord, requiredCorpus, annualPayoutRequired,
      inputsA, defaultAssumptions]
    norm_num
  · simp only [projectionRecord, projectedWealthAtRetirement,
      yearsToRetirement, inputsA, defaultAssumptions]
    rw [abs_sub_lt_iff]
    constructor <;> norm_num [show (15 : ℤ).toNat = 15 from rfl]
  · simp only [projectionRecord, wealthGap, requiredCorpus,
      annualPayoutRequired, projectedWealthAtRetirement, yearsToRetirement,
      inputsA, defaultAssumptions]
    rw [abs_sub_lt_iff]
    constructor <;> norm_num [show (15 : ℤ).toNat = 15 from rfl]
  · exact requiredMonthlySavings_pos wealthGap_inputsA_pos
      (by norm_num [defaultAssumptions]) (by decide)
  · simp only [projectionRecord]
    exact decide_eq_false wealthGap_inputsA_pos.not_le

/-- The default withdrawal rate `4/100` is positive. -/
theorem defaultAssumptions_withdrawal_pos :
    0 < defaultAssumptions.withdrawalRate := by
  norm_num [defaultAssumptions]

/-- The default pre-retirement growth rate `5/100` is nonnegative. -/
theorem defaultAssumptions_growth_nonneg :
    0 ≤ defaultAssumptions.growthRatePreRetirement := by
  norm_num [defaultAssumptions]

/-- `setPayout` leaves the time-to-retirement data unchanged. -/
theorem setPayout_yearsToRetirement (i : AthleteFinancialInputs) (p : ℚ) :
    yearsToRetirement (setPayout i p) = yearsToRetirement i := rfl

/-- `setPayout` leaves the projected wealth unchanged. -/
theorem setPayout_projectedWealth (i : AthleteFinancialInputs) (p : ℚ)
    (a : AssumptionSet) :
    projectedWealthAtRetirement (setPayout i p) a =
      projectedWealthAtRetirement i a := rfl

/-- C4: with a positive withdrawal rate and nonnegative pre-retirement
growth, raising only `monthlyPayoutRequired` never lowers `requiredCorpus`,
`wealthGap`, or `requiredMonthlySavings` in a successful projection. -/
theorem payout_monotone (i : AthleteFinancialInputs) (a : AssumptionSet)
    (p₁ p₂ : ℚ) (r₁ r₂ : ProjectionResult)
    (hw : 0 < a.withdrawalRate) (hg : 0 ≤ a.growthRatePreRetirement)
    (hp : p₁ ≤ p₂)
    (h₁ : computeProjection (setPayout i p₁) a = .ok r₁)
    (h₂ : computeProjection (setPayout i p₂) a = .ok r₂) :
    r₁.requiredCorpus ≤ r₂.requiredCorpus ∧
    r₁.wealthGap ≤ r₂.wealthGap ∧
    r₁.requiredMonthlySavings ≤ r₂.requiredMonthlySavings := by
  obtain ⟨hy, -, hr₁⟩ := computeProjection_ok_inv h₁
  obtain ⟨-, -, hr₂⟩ := computeProjection_ok_inv h₂
  subst hr₁
  subst hr₂
  have hcorp : requiredCorpus (setPayout i p₁) a ≤
      requiredCorpus (setPayout i p₂) a := by
    unfold requiredCorpus annualPayoutRequired setPayout
    exact (div_le_div_iff_of_pos_right hw).mpr
      (mul_le_mul_of_nonneg_right hp (by norm_num))
  have hgap : wealthGap (setPayout i p₁) a ≤ wealthGap (setPayout i p₂) a := by
    unfold wealthGap
    rw [setPayout_projectedWealth, setPayout_projectedWealth]
    exact sub_le_sub_right hcorp _
  have hA : 0 < annuityFactor (monthlyRate a)
      (monthsToRetirement (setPayout i p₁)) := by
    refine annuityFactor_pos (div_nonneg hg (by norm_num)) ?_
    rw [setPayout_yearsToRetirement] at hy
    unfold monthsToRetirement
    rw [setPayout_yearsToRetirement]
    omega
  have hsav : requiredMonthlySavings (setPayout i p₁) a ≤
      requiredMonthlySavings (setPayout i p₂) a := by
    unfold requiredMonthlySavings
    by_cases hg2 : wealthGap (setPayout i p₂) a ≤ 0
    · rw [if_pos hg2, if_pos (le_trans hgap hg2)]
    · rw [if_neg hg2]
      by_cases hg1 : wealthGap (setPayout i p₁) a ≤ 0
      · rw [if_pos hg1]
        exact le_of_lt (div_pos (lt_of_not_le hg2) hA)
      · rw [if_neg hg1]
        exact (div_le_div_iff_of_pos_right hA).mpr hgap
  exact ⟨hcorp, hgap, hsav⟩

/-- Witness for C4: scenario A with monthly payout raised 5000 to 6000. -/
theorem payout_monotone_witness :
    (projectionRecord (setPayout inputsA 5000)
        defaultAssumptions).requiredCorpus ≤
      (projectionRecord (setPayout inputsA 6000)
        defaultAssumptions).requiredCorpus ∧
    (projectionRecord (setPayout inputsA 5000) defaultAssumptions).wealthGap ≤
      (projectionRecord (setPayout inputsA 6000)
        defaultAssumptions).wealthGap ∧
    (projectionRecord (setPayout inputsA 5000)
        defaultAssumptions).requiredMonthlySavings ≤
      (projectionRecord (setPayout inputsA 6000)
        defaultAssumptions).requiredMonthlySavings :=
  payout_monotone inputsA defaultAssumptions 5000 6000 _ _
    defaultAssumptions_withdrawal_pos defaultAssumptions_growth_nonneg
    (by decide)
    (computeProjection_eq_ok _ _ (by decide)
      (ne_of_gt defaultAssumptions_withdrawal_pos))
    (computeProjection_eq_ok _ _ (by decide)
      (ne_of_gt defaultAssumptions_withdrawal_pos))

/-- `validateStep` succeeds exactly when the step produces no error. -/
theorem validateStep_eq_true_iff (d : QuestionnaireData) (s : Nat) :
    validateStep d s = true ↔ stepError d s = none := by
  simp [validateStep, Option.isNone_iff_eq_none]

/-- C6: the age step validates exactly the present integral ages in
`[18, 100]`; a missing age, or one outside the range, is rejected. -/
theorem age_step_valid_iff (d : QuestionnaireData) :
    validateStep d 0 = true ↔ ∃ a, d.age = some a ∧ 18 ≤ a ∧ a ≤ 100 := by
  rw [validateStep_eq_true_iff]
  rcases hd : d.age with _ | a
  · simp [stepError, jsFalsyInt, hd]
  · simp [stepError, jsFalsyInt, hd, ite_eq_right_iff]
    omega

/-- C8: the wealth step accepts exactly the present nonnegative values
(including 0) and rejects exactly `null` and the negative values. -/
theorem wealth_step_valid_iff (d : QuestionnaireData) :
    validateStep d 2 = true ↔ ∃ w, d.currentWealth = some w ∧ 0 ≤ w := by
  rw [validateStep_eq_true_iff]
  rcases hd : d.currentWealth with _ | w
  · simp [stepError, hd]
  · simp [stepError, hd, ite_eq_right_iff]

/-- C5: the retirement-age step validates only when `retirementAge` strictly
exceeds the current age; on `retirementAge <= age` it records the
age-ordering error, and while the wizard sits on this step no event emits an
analyze request (Enter routes to `handleNext`). -/
theorem retirement_age_ordering :
    (∀ (d : QuestionnaireData) (a : ℤ), d.age = some a →
        validateStep d 3 = true → ∃ r, d.retirementAge = some r ∧ a < r) ∧
    (∀ (d : QuestionnaireData) (a r : ℤ), d.age = some a →
        d.retirementAge = some r → r ≤ a →
        validateStep d 3 = false ∧
        stepError d 3 = some ("retirementAge",
          "Retirement age must be greater than current age")) ∧
    (∀ s : WizardState, s.currentStep = 3 → (handleEnter s).2 = none) := by
  refine ⟨?_, ?_, ?_⟩
  · intro d a ha hv
    rw [validateStep_eq_true_iff] at hv
    rcases hr : d.retirementAge with _ | r
    · simp [stepError, jsFalsyInt, hr] at hv
    · refine ⟨r, rfl, ?_⟩
      simp [stepError, jsFalsyInt, hr, ha, ite_eq_right_iff] at hv
      omega
  · intro d a r ha hr hle
    have he : stepError d 3 = some ("retirementAge",
        "Retirement age must be greater than current age") := by
      simp [stepError, jsFalsyInt, hr, ha]
      omega
    exact ⟨by simp [validateStep, he], he⟩
  · intro s hs
    simp [handleEnter, hs]

/-- Witness for C5 at the spec's invalid scenario `age=45, retirementAge=40`
(and the on-step-3 no-request fact at a concrete state). -/
theorem retirement_age_ordering_witness :
    (validateStep
        { age := some 45, currentIncome := some 100000,
          currentWealth := some 0, retirementAge := some 40,
          monthlyPayoutRequired := some 5000 } 3 = false ∧
      stepError
        { age := some 45, currentIncome := some 100000,
          currentWealth := some 0, retirementAge := some 40,
          monthlyPayoutRequired := some 5000 } 3 =
        some ("retirementAge",
          "Retirement age must be greater than current age")) ∧
    (handleEnter
        { currentStep := 3,
          data :=
            { age := some 45, currentIncome := some 100000,
              currentWealth := some 0, retirementAge := some 40,
              monthlyPayoutRequired := some 5000 },
          errors := [] }).2 = none :=
  ⟨retirement_age_ordering.2.1 _ 45 40 rfl rfl (by decide),
    retirement_age_ordering.2.2 _ rfl⟩

/-- C7 as stated is false: the step-3 validation never checks the upper
bound; a retirement age of 150 with current age 20 validates. -/
theorem retirement_bound_counterexample :
    ¬ (∀ (d : QuestionnaireData) (r : ℤ), d.retirementAge = some r →
        validateStep d 3 = true → 18 ≤ r ∧ r ≤ 100) := by
  intro h
  have h150 := h
    { age := some 20, currentIncome := some 100000, currentWealth := some 0,
      retirementAge := some 150, monthlyPayoutRequired := some 5000 }
    150 rfl (by decide)
  omega

/-- C7 amended: the step-3 validation enforces exactly presence (non-null,
nonzero) and `retirementAge > (age ?? 0)`; no `[18, 100]` range check is
applied to `retirementAge`. -/
theorem retirement_step_valid_iff (d : QuestionnaireData) :
    validateStep d 3 = true ↔
      ∃ r, d.retirementAge = some r ∧ r ≠ 0 ∧ d.age.getD 0 < r := by
  rw [validateStep_eq_true_iff]
  rcases hr : d.retirementAge with _ | r
  · simp [stepError, jsFalsyInt, hr]
  · simp [stepError, jsFalsyInt, hr, ite_eq_right_iff]

/-- C9: at the final step, `handleSubmit` is gated only by the step-4
monthly-payout check — the analyze request is emitted exactly when
`monthlyPayoutRequired` is a positive number, regardless of the validity of
age, income, wealth or retirement age, and the emitted body serializes
`current_wealth` as `currentWealth || 0` (so `null` becomes `0`). -/
theorem final_submit_gating (s : WizardState) (hs : s.currentStep = 4) :
    ((handleSubmit s).2.isSome = true ↔
      ∃ p, s.data.monthlyPayoutRequired = some p ∧ 0 < p) ∧
    (∀ req, (handleSubmit s).2 = some req →
      req = { age := s.data.age
              retirement_age := s.data.retirementAge
              current_wealth := jsNumOrZero s.data.currentWealth
              current_income := s.data.currentIncome
              monthly_payout_required := s.data.monthlyPayoutRequired }) ∧
    (s.data.currentWealth = none → jsNumOrZero s.data.currentWealth = 0) := by
  have hiff : stepError s.data 4 = none ↔
      ∃ p, s.data.monthlyPayoutRequired = some p ∧ 0 < p := by
    rcases hp : s.data.monthlyPayoutRequired with _ | p
    · simp [stepError, jsFalsyRat, hp]
    · simp [stepError, jsFalsyRat, hp, ite_eq_right_iff]
      constructor
      · rintro ⟨h0, hle⟩
        exact lt_of_le_of_ne hle (Ne.symm h0)
      · intro h
        exact ⟨ne_of_gt h, h.le⟩
  refine ⟨?_, ?_, ?_⟩
  · rw [← hiff]
    unfold handleSubmit
    rw [hs]
    by_cases he : (stepError s.data 4).isNone = true
    · simp [he, Option.isNone_iff_eq_none.mp he]
    · simp only [Bool.not_eq_true] at he
      simp [he, Option.isNone_iff_eq_none]
      intro hnone
      rw [hnone] at he
      simp at he
  · intro req hreq
    by_cases he : (stepError s.data 4).isNone = true
    · simp [handleSubmit, hs, he] at hreq
      exact hreq.symm
    · simp [handleSubmit, hs, he] at hreq
  · intro hw
    simp [jsNumOrZero, jsFalsyRat, hw]

/-- Witness for C9: a step-4 state whose age (5), income (`null`), wealth
(`null`) and retirement age (3, below the age) are all invalid still emits
the request, with `current_wealth` serialized as 0. -/
theorem final_submit_gating_witness :
    ((handleSubmit
        { currentStep := 4,
          data :=
            { age := some 5, currentIncome := none, currentWealth := none,
              retirementAge := some 3, monthlyPayoutRequired := some 100 },
          errors := [] }).2.isSome = true ↔
      ∃ p, ({ age := some 5, currentIncome := none, currentWealth := none,
              retirementAge := some 3, monthlyPayoutRequired := some 100 }
        : QuestionnaireData).monthlyPayoutRequired = some p ∧ 0 < p) ∧
    (∀ req, (handleSubmit
        { currentStep := 4,
          data :=
            { age := some 5, currentIncome := none, currentWealth := none,
              retirementAge := some 3, monthlyPayoutRequired := some 100 },
          errors := [] }).2 = some req →
      req = { age := some 5, retirement_age := some 3,
              current_wealth := jsNumOrZero none, current_income := none,
              monthly_payout_required := some 100 }) ∧
    (({ age := some 5, currentIncome := none, currentWealth := none,
        retirementAge := some 3, monthlyPayoutRequired := some 100 }
        : QuestionnaireData).currentWealth = none →
      jsNumOrZero none = 0) :=
  final_submit_gating
    { currentStep := 4,
      data :=
        { age := some 5, currentIncome := none, currentWealth := none,
          retirementAge := some 3, monthlyPayoutRequired := some 100 },
      errors := [] } rfl

/-- `handleNext` never pushes `currentStep` past 4. -/
theorem handleNext_currentStep_le {s : WizardState} (hs : s.currentStep ≤ 4) :
    (handleNext s).currentStep ≤ 4 := by
  simp only [handleNext]
  split
  next hc =>
    simp only [Bool.and_eq_true, decide_eq_true_eq] at hc
    show s.currentStep + 1 ≤ 4
    omega
  · exact hs

/-- `handlePrevious` never pushes `currentStep` past 4. -/
theorem handlePrevious_currentStep_le {s : WizardState}
    (hs : s.currentStep ≤ 4) : (handlePrevious s).currentStep ≤ 4 := by
  simp only [handlePrevious]
  split
  · show s.currentStep - 1 ≤ 4
    omega
  · exact hs

/-- `handleSubmit` leaves `currentStep` unchanged. -/
theorem handleSubmit_currentStep (s : WizardState) :
    (handleSubmit s).1.currentStep = s.currentStep := by
  simp only [handleSubmit]
  split <;> rfl

/-- Every single wizard transition preserves `currentStep ≤ 4`. -/
theorem wizardStep_currentStep_le {s : WizardState} (e : WizardEvent)
    (hs : s.currentStep ≤ 4) : (wizardStep s e).currentStep ≤ 4 := by
  cases e with
  | next => exact handleNext_currentStep_le hs
  | previous => exact handlePrevious_currentStep_le hs
  | enter =>
    simp only [wizardStep, handleEnter]
    split
    · exact handleNext_currentStep_le hs
    · rw [handleSubmit_currentStep]
      exact hs

/-- C10: `currentStep` stays in `[0, 4]` (the lower bound holds because the
step is a natural number) under every sequence of next / previous /
Enter events; `handleNext` increments exactly when the current step
validates and `currentStep < 4`, and `handlePrevious` decrements exactly
when `currentStep > 0`, clearing the error record. -/
theorem step_range_invariant :
    (∀ s : WizardState, s.currentStep ≤ 4 → ∀ evs : List WizardEvent,
      (evs.foldl wizardStep s).currentStep ≤ 4) ∧
    (∀ s : WizardState, (handleNext s).currentStep =
      if validateStep s.data s.currentStep = true ∧ s.currentStep < 4
      then s.currentStep + 1 else s.currentStep) ∧
    (∀ s : WizardState, handlePrevious s =
      if 0 < s.currentStep
      then { s with currentStep := s.currentStep - 1, errors := [] }
      else s) := by
  refine ⟨?_, ?_, ?_⟩
  · intro s hs evs
    induction evs generalizing s with
    | nil => exact hs
    | cons e t ih => exact ih _ (wizardStep_currentStep_le e hs)
  · intro s
    by_cases h1 : validateStep s.data s.currentStep = true
    · have h1' : (stepError s.data s.currentStep).isNone = true := by
        simpa [validateStep] using h1
      by_cases h2 : s.currentStep < 4
      · simp [handleNext, h1, h1', h2]
      · simp [handleNext, h1, h1', h2]
    · have h1' : (stepError s.data s.currentStep).isNone = false := by
        cases ho : (stepError s.data s.currentStep).isNone with
        | false => rfl
        | true => exact absurd (by simpa [validateStep] using ho) h1
      simp [handleNext, h1, h1']
  · intro s
    rfl

/-- Witness for C10: a concrete run next, Enter, previous from step 0, and
the two handler characterizations at that state. -/
theorem step_range_invariant_witness :
    (([WizardEvent.next, WizardEvent.enter, WizardEvent.previous].foldl
        wizardStep
        { currentStep := 0,
          data :=
            { age := some 28, currentIncome := some 150000,
              currentWealth := some 50000, retirementAge := some 45,
              monthlyPayoutRequired := some 5000 },
          errors := [] }).currentStep ≤ 4) ∧
    ((handleNext
        { currentStep := 0,
          data :=
            { age := some 28, currentIncome := some 150000,
              currentWealth := some 50000, retirementAge := some 45,
              monthlyPayoutRequired := some 5000 },
          errors := [] }).currentStep =
      if validateStep
            { age := some 28, currentIncome := some 150000,
              currentWealth := some 50000, retirementAge := some 45,
              monthlyPayoutRequired := some 5000 } 0 = true ∧ (0 : Nat) < 4
      then 0 + 1 else 0) := by
  constructor
  · exact step_range_invariant.1 _ (by decide) _
  · exact step_range_invariant.2.1
      { currentStep := 0,
        data :=
          { age := some 28, currentIncome := some 150000,
            currentWealth := some 50000, retirementAge := some 45,
            monthlyPayoutRequired := some 5000 },
        errors := [] }

/-- Witness for C6: the age-step characterization at a concrete record with
age 28. -/
theorem age_step_valid_iff_witness :
    validateStep
        { age := some 28, currentIncome := some 150000,
          currentWealth := some 50000, retirementAge := some 45,
          monthlyPayoutRequired := some 5000 } 0 = true ↔
      ∃ a, ({ age := some 28, currentIncome := some 150000,
              currentWealth := some 50000, retirementAge := some 45,
              monthlyPayoutRequired := some 5000 }
        : QuestionnaireData).age = some a ∧ 18 ≤ a ∧ a ≤ 100 :=
  age_step_valid_iff
    { age := some 28, currentIncome := some 150000,
      currentWealth := some 50000, retirementAge := some 45,
      monthlyPayoutRequired := some 5000 }

/-- Witness for the amended C7 at a concrete record with retirement age
150 (accepted despite exceeding 100). -/
theorem retirement_step_valid_iff_witness :
    validateStep
        { age := some 20, currentIncome := some 100000,
          currentWealth := some 0, retirementAge := some 150,
          monthlyPayoutRequired := some 5000 } 3 = true ↔
      ∃ r, ({ age := some 20, currentIncome := some 100000,
              currentWealth := some 0, retirementAge := some 150,
              monthlyPayoutRequired := some 5000 }
        : QuestionnaireData).retirementAge = some r ∧ r ≠ 0 ∧
        ({ age := some 20, currentIncome := some 100000,
           currentWealth := some 0, retirementAge := some 150,
           monthlyPayoutRequired := some 5000 }
          : QuestionnaireData).age.getD 0 < r :=
  retirement_step_valid_iff
    { age := some 20, currentIncome := some 100000,
      currentWealth := some 0, retirementAge := some 150,
      monthlyPayoutRequired := some 5000 }

/-- Witness for C8: the wealth-step characterization at a concrete record
with wealth 0. -/
theorem wealth_step_valid_iff_witness :
    validateStep
        { age := some 28, currentIncome := some 150000,
          currentWealth := some 0, retirementAge := some 45,
          monthlyPayoutRequired := some 5000 } 2 = true ↔
      ∃ w, ({ age := some 28, currentIncome := some 150000,
              currentWealth := some 0, retirementAge := some 45,
              monthlyPayoutRequired := some 5000 }
        : QuestionnaireData).currentWealth = some w ∧ 0 ≤ w :=
  wealth_step_valid_iff
    { age := some 28, currentIncome := some 150000,
      currentWealth := some 0, retirementAge := some 45,
      monthlyPayoutRequired := some 5000 }

end AthletePension
